import Mathlib

set_option maxHeartbeats 1000000

/-
  Verification development for the STRR application lifecycle.

  Shallow embedding of:
    src/strr-api/src/strr_api/services/application_service.py
    src/strr-api/src/strr_api/models/application.py
    src/strr-api/src/strr_api/resources/application.py

  Modelling conventions:
  - datetime values are abstracted as Nat timestamps; the current time is an
    explicit `now` parameter wherever the source calls datetime.now or
    datetime.utcnow.
  - persistence is modelled by an explicit trace of actions: `Action.save`
    records a call to application.save(), `Action.emit` records a call to
    EventsService.save_event (the EventLog append), `Action.provision` records
    a call to RegistrationService.create_registration with its first two
    arguments.  EventsService and RegistrationService are not under src/; per
    the spec they are an append-only event log and a registration provisioner
    whose outcome is either a Registration or a ProvisioningError, so the
    provisioning outcome is passed in as an explicit `Except Unit Registration`
    parameter.
  - exceptions are modelled with Except: a function that raises returns
    Except.error together with the actions performed before the raise.
-/

namespace STRR

/-- Application.Status enumeration, models Application.Status in
    src/strr-api/src/strr_api/models/application.py (a str-valued enum whose
    values equal the member names). -/
inductive Status
  | DRAFT
  | PAYMENT_DUE
  | PAID
  | AUTO_APPROVED
  | PROVISIONALLY_APPROVED
  | FULL_REVIEW_APPROVED
  | PROVISIONAL_REVIEW
  | ADDITIONAL_INFO_REQUESTED
  | FULL_REVIEW
  | DECLINED
  | PROVISIONAL
  deriving DecidableEq, Repr

/-- The string value of a status (the Status enum is string-valued, the DB
    column stores this string). -/
def statusToString : Status → String
  | Status.DRAFT => "DRAFT"
  | Status.PAYMENT_DUE => "PAYMENT_DUE"
  | Status.PAID => "PAID"
  | Status.AUTO_APPROVED => "AUTO_APPROVED"
  | Status.PROVISIONALLY_APPROVED => "PROVISIONALLY_APPROVED"
  | Status.FULL_REVIEW_APPROVED => "FULL_REVIEW_APPROVED"
  | Status.PROVISIONAL_REVIEW => "PROVISIONAL_REVIEW"
  | Status.ADDITIONAL_INFO_REQUESTED => "ADDITIONAL_INFO_REQUESTED"
  | Status.FULL_REVIEW => "FULL_REVIEW"
  | Status.DECLINED => "DECLINED"
  | Status.PROVISIONAL => "PROVISIONAL"

/-- ASCII upper-casing of one character, models Python str.upper on the
    ASCII status strings handled by the boundary. -/
def pyUpperChar (c : Char) : Char :=
  if 'a' ≤ c ∧ c ≤ 'z' then Char.ofNat (c.toNat - 32) else c

/-- ASCII upper-casing of a string, models Python str.upper. -/
def pyUpper (s : String) : String :=
  String.mk (s.data.map pyUpperChar)

/-- Parses a string into a Status value; none when the string equals no
    enum value (in Python, string membership in a list of str-enum members
    is false in exactly that case). -/
def strToStatus (s : String) : Option Status :=
  if s = "DRAFT" then some Status.DRAFT
  else if s = "PAYMENT_DUE" then some Status.PAYMENT_DUE
  else if s = "PAID" then some Status.PAID
  else if s = "AUTO_APPROVED" then some Status.AUTO_APPROVED
  else if s = "PROVISIONALLY_APPROVED" then some Status.PROVISIONALLY_APPROVED
  else if s = "FULL_REVIEW_APPROVED" then some Status.FULL_REVIEW_APPROVED
  else if s = "PROVISIONAL_REVIEW" then some Status.PROVISIONAL_REVIEW
  else if s = "ADDITIONAL_INFO_REQUESTED" then some Status.ADDITIONAL_INFO_REQUESTED
  else if s = "FULL_REVIEW" then some Status.FULL_REVIEW
  else if s = "DECLINED" then some Status.DECLINED
  else if s = "PROVISIONAL" then some Status.PROVISIONAL
  else none

/-- APPLICATION_TERMINAL_STATES from application_service.py lines 46-51. -/
def APPLICATION_TERMINAL_STATES : List Status :=
  [Status.FULL_REVIEW_APPROVED, Status.PROVISIONALLY_APPROVED,
   Status.AUTO_APPROVED, Status.DECLINED]

/-- APPLICATION_STATES_STAFF_ACTION from application_service.py lines 52-57. -/
def APPLICATION_STATES_STAFF_ACTION : List Status :=
  [Status.FULL_REVIEW_APPROVED, Status.PROVISIONALLY_APPROVED,
   Status.DECLINED, Status.ADDITIONAL_INFO_REQUESTED]

/-- APPLICATION_UNPAID_STATES from application_service.py line 58. -/
def APPLICATION_UNPAID_STATES : List Status :=
  [Status.DRAFT, Status.PAYMENT_DUE]

/-- Modelled from the spec: the PaymentStatus enum lives in
    strr_api.enums.enum, which is not under src/; per the spec the invoice
    status codes are CREATED, COMPLETED and APPROVED, and the literal string
    "COMPLETED" used in the idempotency guard equals
    PaymentStatus.COMPLETED.value. -/
def PaymentStatus_CREATED : String := "CREATED"

/-- Modelled from the spec: value of PaymentStatus.COMPLETED. -/
def PaymentStatus_COMPLETED : String := "COMPLETED"

/-- Modelled from the spec: value of PaymentStatus.APPROVED. -/
def PaymentStatus_APPROVED : String := "APPROVED"

/-- The Application row, with the columns of
    src/strr-api/src/strr_api/models/application.py (the computed tsv column
    is omitted; datetimes are Nat timestamps). -/
structure Application where
  id : Nat
  application_json : String
  application_date : Nat
  type : String
  status : Status
  decision_date : Option Nat
  invoice_id : Option Nat
  payment_status_code : Option String
  payment_completion_date : Option Nat
  payment_account : Option String
  registration_id : Option Nat
  submitter_id : Option Nat
  reviewer_id : Option Nat
  deriving DecidableEq, Repr

/-- Invoice details dict passed to
    update_application_payment_details_and_status.  The id key is required
    (a missing id raises before any mutation); paymentAccountId models
    invoice_details.get("paymentAccount").get("accountId"); statusCode models
    invoice_details.get("statusCode"); paymentDate models the paymentDate
    value as an abstract timestamp (assumed present and well-formed whenever
    the COMPLETED branch reads it, which no claim exercises otherwise). -/
structure InvoiceDetails where
  id : Nat
  paymentAccountId : Option String
  statusCode : Option String
  paymentDate : Nat
  deriving DecidableEq, Repr

/-- Events.EventType values used by the service (APPLICATION, REGISTRATION). -/
inductive EventType
  | APPLICATION
  | REGISTRATION
  deriving DecidableEq, Repr

/-- Events.EventName values used by the service. -/
inductive EventName
  | APPLICATION_SUBMITTED
  | PAYMENT_COMPLETE
  | REGISTRATION_CREATED
  | MANUALLY_APPROVED
  | MANUALLY_DENIED
  | MORE_INFORMATION_REQUESTED
  deriving DecidableEq, Repr

/-- An event-log record as passed to EventsService.save_event. -/
structure Event where
  event_type : EventType
  event_name : EventName
  application_id : Nat
  registration_id : Option Nat
  deriving DecidableEq, Repr

/-- A provisioned registration; only the id is consulted by the service. -/
structure Registration where
  id : Nat
  deriving DecidableEq, Repr

/-- One observable side effect of a lifecycle operation, in program order:
    a call to application.save(), a call to EventsService.save_event, or a
    call to RegistrationService.create_registration (recording its
    submitter_id and payment_account arguments). -/
inductive Action
  | save (app : Application)
  | emit (e : Event)
  | provision (submitter : Option Nat) (account : Option String)
  deriving DecidableEq, Repr

/-- The persisted application after a list of actions: the argument of the
    last save action, or the initial row when nothing was saved. -/
def lastSaved (init : Application) : List Action → Application
  | [] => init
  | Action.save app :: rest => lastSaved app rest
  | Action.emit _ :: rest => lastSaved init rest
  | Action.provision _ _ :: rest => lastSaved init rest

/-- The events appended by a list of actions, in order. -/
def emittedEvents (acts : List Action) : List Event :=
  acts.filterMap fun a =>
    match a with
    | Action.save _ => none
    | Action.emit e => some e
    | Action.provision _ _ => none

/-- Whether the action list contains a REGISTRATION_CREATED event. -/
def hasRegCreated : List Action → Bool
  | [] => false
  | Action.emit e :: rest =>
    if e.event_name = EventName.REGISTRATION_CREATED then true else hasRegCreated rest
  | Action.save _ :: rest => hasRegCreated rest
  | Action.provision _ _ :: rest => hasRegCreated rest

/-- Helper for emitsAfterSave: the Bool argument records whether a save has
    already occurred earlier in the trace. -/
def emitsAfterSaveAux : Bool → List Action → Bool
  | _, [] => true
  | _, Action.save _ :: rest => emitsAfterSaveAux true rest
  | seen, Action.emit _ :: rest => seen && emitsAfterSaveAux seen rest
  | seen, Action.provision _ _ :: rest => emitsAfterSaveAux seen rest

/-- True when every emitted event in the trace is preceded by a save. -/
def emitsAfterSave (acts : List Action) : Bool :=
  emitsAfterSaveAux false acts

/-- ApplicationService.save_application (application_service.py lines 69-81):
    builds a new Application row with payment_account, submitter_id, type
    REGISTRATION and the request json; status defaults to DRAFT and
    application_date to now (column defaults); all other columns are null. -/
def save_application (account_id : Option String) (submitter_id : Nat)
    (request_json : String) (app_id now : Nat) : Application :=
  { id := app_id
    application_json := request_json
    application_date := now
    type := "REGISTRATION"
    status := Status.DRAFT
    decision_date := none
    invoice_id := none
    payment_status_code := none
    payment_completion_date := none
    payment_account := account_id
    registration_id := none
    submitter_id := some submitter_id
    reviewer_id := none }

/-- The status-transition block of
    update_application_payment_details_and_status
    (application_service.py lines 137-154), applied after the invoice fields
    have been copied in.  Returns the updated row and the events emitted
    inside the block. -/
def reconcileBranch (app : Application) (invoice_details : InvoiceDetails)
    (now : Nat) : Application × List Action :=
  if app.status = Status.DRAFT ∧ app.payment_status_code = some PaymentStatus_CREATED then
    ({ app with status := Status.PAYMENT_DUE },
     [Action.emit { event_type := EventType.APPLICATION,
                    event_name := EventName.APPLICATION_SUBMITTED,
                    application_id := app.id, registration_id := none }])
  else if app.payment_status_code = some PaymentStatus_COMPLETED then
    ({ app with
       status := Status.PAID,
       payment_completion_date := some invoice_details.paymentDate }, [])
  else if app.payment_status_code = some PaymentStatus_APPROVED then
    ({ app with
       payment_status_code := some PaymentStatus_COMPLETED,
       status := Status.PAID,
       payment_completion_date := some now }, [])
  else (app, [])

/-- The tail of update_application_payment_details_and_status
    (application_service.py lines 156-164): application.save(), then a
    PAYMENT_COMPLETE event when the resulting payment_status_code is
    COMPLETED. -/
def reconcileSave : Application × List Action → Application × List Action
  | (app, acts) =>
    if app.payment_status_code = some PaymentStatus_COMPLETED then
      (app, acts ++ [Action.save app,
        Action.emit { event_type := EventType.APPLICATION,
                      event_name := EventName.PAYMENT_COMPLETE,
                      application_id := app.id, registration_id := none }])
    else (app, acts ++ [Action.save app])

/-- ApplicationService.update_application_payment_details_and_status
    (application_service.py lines 124-164).  Returns the returned application
    and the trace of side effects in program order. -/
def update_application_payment_details_and_status (application : Application)
    (invoice_details : InvoiceDetails) (now : Nat) : Application × List Action :=
  if application.payment_status_code = some "COMPLETED" then
    (application, [])
  else
    reconcileSave (reconcileBranch
      { application with
        invoice_id := some invoice_details.id,
        payment_account := invoice_details.paymentAccountId,
        payment_status_code := invoice_details.statusCode }
      invoice_details now)

/-- ApplicationService._get_event_name (application_service.py lines 197-205):
    the local variable event_name is assigned only in the three named
    branches; none models the UnboundLocalError raised on return for every
    other status. -/
def _get_event_name (application_status : Status) : Option EventName :=
  if application_status = Status.FULL_REVIEW_APPROVED then
    some EventName.MANUALLY_APPROVED
  else if application_status = Status.DECLINED then
    some EventName.MANUALLY_DENIED
  else if application_status = Status.ADDITIONAL_INFO_REQUESTED then
    some EventName.MORE_INFORMATION_REQUESTED
  else none

/-- The tail of update_application_status (application_service.py lines
    184-195): set decision_date and reviewer_id when the status is terminal,
    application.save(), then emit the event named by _get_event_name, which
    raises when that name is unassigned. -/
def finishTransition (app1 : Application) (reviewer_id now : Nat)
    (acts1 : List Action) : Except String Application × List Action :=
  let app2 :=
    if app1.status ∈ APPLICATION_TERMINAL_STATES then
      { app1 with decision_date := some now, reviewer_id := some reviewer_id }
    else app1
  let acts2 := acts1 ++ [Action.save app2]
  match _get_event_name app2.status with
  | none => (Except.error "UnboundLocalError", acts2)
  | some n =>
    (Except.ok app2,
     acts2 ++ [Action.emit { event_type := EventType.APPLICATION, event_name := n,
                             application_id := app2.id, registration_id := none }])

/-- ApplicationService.update_application_status (application_service.py lines
    166-195).  The outcome of RegistrationService.create_registration is the
    explicit provision parameter; on FULL_REVIEW_APPROVED the service calls
    the provisioner with submitter_id and payment_account, and when it
    succeeds emits REGISTRATION_CREATED tagged with the new registration id
    and sets registration_id, all before the save; a ProvisioningError
    propagates immediately. -/
def update_application_status (application : Application)
    (application_status : Status) (reviewer_id now : Nat)
    (provision : Except Unit Registration) :
    Except String Application × List Action :=
  let app0 := { application with status := application_status }
  if app0.status = Status.FULL_REVIEW_APPROVED then
    match provision with
    | Except.error _ =>
      (Except.error "ProvisioningError",
       [Action.provision app0.submitter_id app0.payment_account])
    | Except.ok registration =>
      finishTransition { app0 with registration_id := some registration.id }
        reviewer_id now
        [Action.provision app0.submitter_id app0.payment_account,
         Action.emit { event_type := EventType.REGISTRATION,
                       event_name := EventName.REGISTRATION_CREATED,
                       application_id := app0.id,
                       registration_id := some registration.id }]
  else
    finishTransition app0 reviewer_id now []

/-- Outcome of the status-update boundary route, mapped to the HTTP responses
    of resources/application.py lines 406-427: ok is the 200 response,
    badRequest the 400 responses, notFound the 404, and internalError the
    catch-all 500 produced when the service raises. -/
inductive BoundaryResult
  | ok (app : Application)
  | badRequest
  | notFound
  | internalError
  deriving DecidableEq, Repr

/-- The PUT status boundary update_application_status
    (resources/application.py lines 378-427).  find is the result of the
    application lookup; statusStr the raw request status (none when the key
    is missing; the empty string is falsy like None).  The checks run in
    source order: staff-actionable membership of the upper-cased status, then
    existence, then the terminal-state guard, and only then the service. -/
def resource_update_application_status (find : Option Application)
    (statusStr : Option String) (reviewer_id now : Nat)
    (provision : Except Unit Registration) : BoundaryResult × List Action :=
  match statusStr with
  | none => (BoundaryResult.badRequest, [])
  | some s =>
    if s = "" then (BoundaryResult.badRequest, [])
    else
      match strToStatus (pyUpper s) with
      | none => (BoundaryResult.badRequest, [])
      | some st =>
        if st ∈ APPLICATION_STATES_STAFF_ACTION then
          match find with
          | none => (BoundaryResult.notFound, [])
          | some application =>
            if application.status ∈ APPLICATION_TERMINAL_STATES then
              (BoundaryResult.badRequest, [])
            else
              match update_application_status application st reviewer_id now provision with
              | (Except.ok app, acts) => (BoundaryResult.ok app, acts)
              | (Except.error _, acts) => (BoundaryResult.internalError, acts)
        else (BoundaryResult.badRequest, [])

/-- One boundary-guarded operation on a persisted application: a payment
    reconciliation callback or a staff status update. -/
inductive Op
  | reconcile (invoice : InvoiceDetails) (now : Nat)
  | transition (statusStr : Option String) (reviewer_id : Nat) (now : Nat)
      (provision : Except Unit Registration)

/-- Applies one operation to the persisted row: the new persisted row is the
    last saved row of the produced trace (an operation that raises before any
    save leaves the row unchanged). -/
def applyOp (app : Application) : Op → Application × List Action
  | Op.reconcile inv now =>
    let r := update_application_payment_details_and_status app inv now
    (lastSaved app r.2, r.2)
  | Op.transition s rid now prov =>
    let r := resource_update_application_status (some app) s rid now prov
    (lastSaved app r.2, r.2)

/-- Runs a list of operations from an initial persisted row, accumulating the
    full action trace. -/
def runOps (app : Application) : List Op → Application × List Action
  | [] => (app, [])
  | op :: ops =>
    let r := applyOp app op
    let r2 := runOps r.1 ops
    (r2.1, r.2 ++ r2.2)

/-- A paginated query result, models flask-sqlalchemy Pagination. -/
structure Pagination where
  items : List Application
  total : Nat
  page : Nat
  per_page : Nat
  deriving DecidableEq, Repr

/-- Models flask-sqlalchemy Query.paginate with its default error_out=True
    (the source calls query.paginate(per_page=..., page=...) with no
    error_out argument): none models the abort(404) raised when page < 1,
    when per_page < 1, or when the requested page has no items and is not
    page 1; otherwise the items are the rows at positions
    [(page-1)*per_page, page*per_page) and total is the full row count. -/
def paginate (rows : List Application) (per_page page : Nat) : Option Pagination :=
  if page < 1 then none
  else if per_page < 1 then none
  else
    let items := (rows.drop ((page - 1) * per_page)).take per_page
    if items = [] ∧ page ≠ 1 then none
    else some { items := items, total := rows.length, page := page, per_page := per_page }

/-- Insert into a list kept in descending id order. -/
def insertDesc (a : Application) : List Application → List Application
  | [] => [a]
  | b :: bs => if b.id ≤ a.id then a :: b :: bs else b :: insertDesc a bs

/-- Sort a list of rows by id descending (models order_by(Application.id.desc())). -/
def sortByIdDesc : List Application → List Application
  | [] => []
  | a :: rest => insertDesc a (sortByIdDesc rest)

/-- The filtering part of Application.find_by_user_and_account
    (models/application.py lines 128-141): restrict to the submitter and
    payment account unless the caller is an examiner, then apply the
    upper-cased status filter when present. -/
def matchedRows (rows : List Application) (user_id : Nat) (account_id : String)
    (statusFilter : Option String) (is_examiner : Bool) : List Application :=
  let q :=
    if is_examiner then rows
    else rows.filter fun a =>
      decide (a.submitter_id = some user_id) && decide (a.payment_account = some account_id)
  match statusFilter with
  | some s => q.filter fun a => decide (statusToString a.status = pyUpper s)
  | none => q

/-- Application.find_by_user_and_account (models/application.py lines
    128-141): filter, order by id descending, then paginate with
    per_page=limit and page=page. -/
def find_by_user_and_account (rows : List Application) (user_id : Nat)
    (account_id : String) (statusFilter : Option String) (page limit : Nat)
    (is_examiner : Bool) : Option Pagination :=
  paginate (sortByIdDesc (matchedRows rows user_id account_id statusFilter is_examiner))
    limit page

/-- A sample DRAFT application, as created by save_application. -/
def appD : Application := save_application (some "A1") 1 "payload" 1 100

/-- A sample application in a terminal status. -/
def appT : Application := { appD with status := Status.AUTO_APPROVED }

/-- A sample application under full review (not terminal). -/
def appF : Application := { appD with status := Status.FULL_REVIEW }

/-- A sample application whose payment is already completed. -/
def appC : Application := { appD with payment_status_code := some "COMPLETED" }

/-- Sample invoice details with statusCode CREATED. -/
def invCreated : InvoiceDetails :=
  { id := 9, paymentAccountId := some "A1", statusCode := some "CREATED", paymentDate := 50 }

/-- Sample invoice details with statusCode APPROVED. -/
def invApproved : InvoiceDetails :=
  { id := 9, paymentAccountId := some "A1", statusCode := some "APPROVED", paymentDate := 50 }

/-- A sample provisioned registration. -/
def reg3 : Registration := { id := 3 }

lemma parse_FRA :
    strToStatus (pyUpper "FULL_REVIEW_APPROVED") = some Status.FULL_REVIEW_APPROVED := by
  decide

lemma parse_PA :
    strToStatus (pyUpper "PROVISIONALLY_APPROVED") = some Status.PROVISIONALLY_APPROVED := by
  decide

/-- Record form of the DECLINED transition target row. -/
lemma service_DECLINED (app : Application) (rid now : Nat) (prov : Except Unit Registration) :
    update_application_status app Status.DECLINED rid now prov =
      (Except.ok { app with
                   status := Status.DECLINED,
                   decision_date := some now,
                   reviewer_id := some rid },
       [Action.save { app with
                      status := Status.DECLINED,
                      decision_date := some now,
                      reviewer_id := some rid },
        Action.emit { event_type := EventType.APPLICATION,
                      event_name := EventName.MANUALLY_DENIED,
                      application_id := app.id, registration_id := none }]) := by
  unfold update_application_status finishTransition _get_event_name
  simp [APPLICATION_TERMINAL_STATES]

lemma service_AIR (app : Application) (rid now : Nat) (prov : Except Unit Registration) :
    update_application_status app Status.ADDITIONAL_INFO_REQUESTED rid now prov =
      (Except.ok { app with status := Status.ADDITIONAL_INFO_REQUESTED },
       [Action.save { app with status := Status.ADDITIONAL_INFO_REQUESTED },
        Action.emit { event_type := EventType.APPLICATION,
                      event_name := EventName.MORE_INFORMATION_REQUESTED,
                      application_id := app.id, registration_id := none }]) := by
  unfold update_application_status finishTransition _get_event_name
  simp [APPLICATION_TERMINAL_STATES]

lemma service_PA (app : Application) (rid now : Nat) (prov : Except Unit Registration) :
    update_application_status app Status.PROVISIONALLY_APPROVED rid now prov =
      (Except.error "UnboundLocalError",
       [Action.save { app with
                      status := Status.PROVISIONALLY_APPROVED,
                      decision_date := some now,
                      reviewer_id := some rid }]) := by
  unfold update_application_status finishTransition _get_event_name
  simp [APPLICATION_TERMINAL_STATES]

lemma service_AUTO (app : Application) (rid now : Nat) (prov : Except Unit Registration) :
    update_application_status app Status.AUTO_APPROVED rid now prov =
      (Except.error "UnboundLocalError",
       [Action.save { app with
                      status := Status.AUTO_APPROVED,
                      decision_date := some now,
                      reviewer_id := some rid }]) := by
  unfold update_application_status finishTransition _get_event_name
  simp [APPLICATION_TERMINAL_STATES]

lemma service_FRA_ok (app : Application) (rid now : Nat) (reg : Registration) :
    update_application_status app Status.FULL_REVIEW_APPROVED rid now (Except.ok reg) =
      (Except.ok { app with
                   status := Status.FULL_REVIEW_APPROVED,
                   registration_id := some reg.id,
                   decision_date := some now,
                   reviewer_id := some rid },
       [Action.provision app.submitter_id app.payment_account,
        Action.emit { event_type := EventType.REGISTRATION,
                      event_name := EventName.REGISTRATION_CREATED,
                      application_id := app.id, registration_id := some reg.id },
        Action.save { app with
                      status := Status.FULL_REVIEW_APPROVED,
                      registration_id := some reg.id,
                      decision_date := some now,
                      reviewer_id := some rid },
        Action.emit { event_type := EventType.APPLICATION,
                      event_name := EventName.MANUALLY_APPROVED,
                      application_id := app.id, registration_id := none }]) := by
  unfold update_application_status finishTransition _get_event_name
  simp [APPLICATION_TERMINAL_STATES]

lemma service_FRA_err (app : Application) (rid now : Nat) (e : Unit) :
    update_application_status app Status.FULL_REVIEW_APPROVED rid now (Except.error e) =
      (Except.error "ProvisioningError",
       [Action.provision app.submitter_id app.payment_account]) := by
  unfold update_application_status
  simp

/-- When every boundary guard passes, the route returns the service outcome
    and performs exactly the service trace. -/
lemma boundary_pass (app : Application) (s : String) (st : Status) (rid now : Nat)
    (prov : Except Unit Registration) (res : Except String Application)
    (acts : List Action)
    (hparse : strToStatus (pyUpper s) = some st)
    (hstaff : st ∈ APPLICATION_STATES_STAFF_ACTION)
    (hterm : app.status ∉ APPLICATION_TERMINAL_STATES)
    (hres : update_application_status app st rid now prov = (res, acts)) :
    resource_update_application_status (some app) (some s) rid now prov =
      ((match res with
        | Except.ok a => BoundaryResult.ok a
        | Except.error _ => BoundaryResult.internalError), acts) := by
  have hne : s ≠ "" := by
    intro h
    have hempty : strToStatus (pyUpper "") = none := rfl
    rw [h, hempty] at hparse
    exact Option.noConfusion hparse
  simp only [resource_update_application_status, if_neg hne, hparse, if_pos hstaff,
    if_neg hterm, hres]
  cases res <;> rfl

/-- Every rejection path of the boundary returns badRequest with no actions
    whenever the target application is terminal. -/
lemma boundary_terminal (app : Application) (statusStr : Option String)
    (rid now : Nat) (prov : Except Unit Registration)
    (hterm : app.status ∈ APPLICATION_TERMINAL_STATES) :
    resource_update_application_status (some app) statusStr rid now prov =
      (BoundaryResult.badRequest, []) := by
  cases statusStr with
  | none => rfl
  | some s =>
    simp only [resource_update_application_status]
    by_cases hs : s = ""
    · simp [hs]
    · rw [if_neg hs]
      cases h : strToStatus (pyUpper s) with
      | none => rfl
      | some st =>
        by_cases hm : st ∈ APPLICATION_STATES_STAFF_ACTION
        · simp only [if_pos hm, if_pos hterm]
        · simp only [if_neg hm]

/-- C1: for every application whose status is terminal, the status-update
    boundary rejects the request with a bad-request error before invoking the
    lifecycle (its side-effect trace is empty); any requested status outside
    the staff-actionable set is likewise rejected with no state mutation; so
    terminal statuses are absorbing under the boundary-guarded step
    relation. -/
theorem C1_terminal_rejected_before_lifecycle :
    (∀ (app : Application) (statusStr : Option String) (rid now : Nat)
       (prov : Except Unit Registration),
       app.status ∈ APPLICATION_TERMINAL_STATES →
       resource_update_application_status (some app) statusStr rid now prov =
         (BoundaryResult.badRequest, []))
    ∧ (∀ (find : Option Application) (s : String) (rid now : Nat)
         (prov : Except Unit Registration),
       (∀ st, strToStatus (pyUpper s) = some st → st ∉ APPLICATION_STATES_STAFF_ACTION) →
       resource_update_application_status find (some s) rid now prov =
         (BoundaryResult.badRequest, []))
    ∧ (∀ (app : Application) (statusStr : Option String) (rid now : Nat)
         (prov : Except Unit Registration),
       app.status ∈ APPLICATION_TERMINAL_STATES →
       applyOp app (Op.transition statusStr rid now prov) = (app, [])) := by
  refine ⟨fun app statusStr rid now prov hterm => boundary_terminal app statusStr rid now prov hterm,
    ?_, ?_⟩
  · intro find s rid now prov hout
    simp only [resource_update_application_status]
    by_cases hs : s = ""
    · simp [hs]
    · rw [if_neg hs]
      cases h : strToStatus (pyUpper s) with
      | none => rfl
      | some st => simp only [if_neg (hout st h)]
  · intro app statusStr rid now prov hterm
    simp only [applyOp]
    rw [boundary_terminal app statusStr rid now prov hterm]
    rfl

/-- Witness for C1 at a concrete terminal application and a concrete
    non-staff-actionable requested status. -/
theorem C1_witness :
    resource_update_application_status (some appT) (some "DECLINED") 7 200
        (Except.ok reg3) = (BoundaryResult.badRequest, []) ∧
    resource_update_application_status (some appF) (some "PAID") 7 200
        (Except.ok reg3) = (BoundaryResult.badRequest, []) ∧
    applyOp appT (Op.transition (some "DECLINED") 7 200 (Except.ok reg3)) = (appT, []) :=
  ⟨C1_terminal_rejected_before_lifecycle.1 appT (some "DECLINED") 7 200 (Except.ok reg3)
     (by decide),
   C1_terminal_rejected_before_lifecycle.2.1 (some appF) "PAID" 7 200 (Except.ok reg3)
     (by decide),
   C1_terminal_rejected_before_lifecycle.2.2 appT (some "DECLINED") 7 200 (Except.ok reg3)
     (by decide)⟩

/-- The idempotency guard of update_application_payment_details_and_status
    (line 130-131): a completed payment returns the application unchanged
    with no side effects. -/
lemma reconcile_guard (app : Application) (inv : InvoiceDetails) (now : Nat)
    (h : app.payment_status_code = some "COMPLETED") :
    update_application_payment_details_and_status app inv now = (app, []) := by
  simp only [update_application_payment_details_and_status, if_pos h]

/-- C2: reconcilePayment is idempotent on completed payments: when
    paymentStatusCode is already COMPLETED it returns the application with
    every field unchanged and emits no event; hence a second call after a
    first call that leaves paymentStatusCode COMPLETED changes nothing. -/
theorem C2_reconcile_idempotent_on_completed :
    (∀ (app : Application) (inv : InvoiceDetails) (now : Nat),
       app.payment_status_code = some "COMPLETED" →
       update_application_payment_details_and_status app inv now = (app, []))
    ∧ (∀ (app : Application) (inv : InvoiceDetails) (now1 now2 : Nat),
       (update_application_payment_details_and_status app inv now1).1.payment_status_code =
         some "COMPLETED" →
       update_application_payment_details_and_status
           (update_application_payment_details_and_status app inv now1).1 inv now2 =
         ((update_application_payment_details_and_status app inv now1).1, [])) :=
  ⟨reconcile_guard,
   fun app inv now1 now2 h =>
     reconcile_guard (update_application_payment_details_and_status app inv now1).1 inv now2 h⟩

/-- Witness for C2 at a concrete completed application and a concrete
    APPROVED-then-retry sequence. -/
theorem C2_witness :
    update_application_payment_details_and_status appC invCreated 5 = (appC, []) ∧
    update_application_payment_details_and_status
        (update_application_payment_details_and_status appD invApproved 5).1 invApproved 6 =
      ((update_application_payment_details_and_status appD invApproved 5).1, []) :=
  ⟨C2_reconcile_idempotent_on_completed.1 appC invCreated 5 rfl,
   C2_reconcile_idempotent_on_completed.2 appD invApproved 5 6 (by decide)⟩

/-- C7: on any application whose payment is not already COMPLETED,
    reconciliation with invoice statusCode APPROVED normalizes the stored
    paymentStatusCode to COMPLETED, sets status PAID and
    payment_completion_date to the current time, and emits exactly one
    PAYMENT_COMPLETE event after the save (the DRAFT-with-CREATED branch is
    unreachable because the incoming statusCode is APPROVED, so this holds
    for every status). -/
theorem C7_reconcile_approved_normalizes (app : Application) (inv : InvoiceDetails)
    (now : Nat)
    (h1 : app.payment_status_code ≠ some "COMPLETED")
    (h2 : inv.statusCode = some "APPROVED") :
    update_application_payment_details_and_status app inv now =
      ({ app with
         invoice_id := some inv.id,
         payment_account := inv.paymentAccountId,
         payment_status_code := some "COMPLETED",
         status := Status.PAID,
         payment_completion_date := some now },
       [Action.save { app with
                      invoice_id := some inv.id,
                      payment_account := inv.paymentAccountId,
                      payment_status_code := some "COMPLETED",
                      status := Status.PAID,
                      payment_completion_date := some now },
        Action.emit { event_type := EventType.APPLICATION,
                      event_name := EventName.PAYMENT_COMPLETE,
                      application_id := app.id, registration_id := none }]) := by
  simp [update_application_payment_details_and_status, reconcileBranch, reconcileSave,
    h1, h2, PaymentStatus_CREATED, PaymentStatus_COMPLETED, PaymentStatus_APPROVED]

/-- Witness for C7 on a fresh DRAFT application and an APPROVED invoice. -/
theorem C7_witness :
    update_application_payment_details_and_status appD invApproved 5 =
      ({ appD with
         invoice_id := some invApproved.id,
         payment_account := invApproved.paymentAccountId,
         payment_status_code := some "COMPLETED",
         status := Status.PAID,
         payment_completion_date := some 5 },
       [Action.save { appD with
                      invoice_id := some invApproved.id,
                      payment_account := invApproved.paymentAccountId,
                      payment_status_code := some "COMPLETED",
                      status := Status.PAID,
                      payment_completion_date := some 5 },
        Action.emit { event_type := EventType.APPLICATION,
                      event_name := EventName.PAYMENT_COMPLETE,
                      application_id := appD.id, registration_id := none }]) :=
  C7_reconcile_approved_normalizes appD invApproved 5 (by decide) rfl

/-- C4: when provisioning fails on a FULL_REVIEW_APPROVED transition, the
    service raises before any save: no REGISTRATION_CREATED event is
    emitted, no event at all is appended, and the persisted application is
    unchanged (all-or-nothing); through the boundary the request reports an
    internal error with the same empty mutation footprint. -/
theorem C4_provisioning_failure_all_or_nothing :
    (∀ (app : Application) (rid now : Nat) (e : Unit),
       update_application_status app Status.FULL_REVIEW_APPROVED rid now (Except.error e) =
         (Except.error "ProvisioningError",
          [Action.provision app.submitter_id app.payment_account]))
    ∧ (∀ (app : Application) (rid now : Nat) (e : Unit),
       lastSaved app
           (update_application_status app Status.FULL_REVIEW_APPROVED rid now
             (Except.error e)).2 = app ∧
       emittedEvents
           (update_application_status app Status.FULL_REVIEW_APPROVED rid now
             (Except.error e)).2 = [])
    ∧ (∀ (app : Application) (rid now : Nat) (e : Unit),
       app.status ∉ APPLICATION_TERMINAL_STATES →
       resource_update_application_status (some app) (some "FULL_REVIEW_APPROVED") rid now
           (Except.error e) =
         (BoundaryResult.internalError,
          [Action.provision app.submitter_id app.payment_account])) := by
  refine ⟨service_FRA_err, ?_, ?_⟩
  · intro app rid now e
    rw [service_FRA_err app rid now e]
    exact ⟨rfl, rfl⟩
  · intro app rid now e hterm
    exact boundary_pass app "FULL_REVIEW_APPROVED" Status.FULL_REVIEW_APPROVED rid now
      (Except.error e) _ _ parse_FRA (by decide) hterm (service_FRA_err app rid now e)

/-- Witness for C4 on an application under full review. -/
theorem C4_witness :
    update_application_status appF Status.FULL_REVIEW_APPROVED 7 200 (Except.error ()) =
      (Except.error "ProvisioningError",
       [Action.provision appF.submitter_id appF.payment_account]) ∧
    resource_update_application_status (some appF) (some "FULL_REVIEW_APPROVED") 7 200
        (Except.error ()) =
      (BoundaryResult.internalError,
       [Action.provision appF.submitter_id appF.payment_account]) :=
  ⟨C4_provisioning_failure_all_or_nothing.1 appF 7 200 (),
   C4_provisioning_failure_all_or_nothing.2.2 appF 7 200 () (by decide)⟩

/-- C10: the status-to-event-name map is partial: it returns an event name
    only for FULL_REVIEW_APPROVED, DECLINED and ADDITIONAL_INFO_REQUESTED;
    for the staff-actionable PROVISIONALLY_APPROVED the boundary call ends in
    an error, and the only action in its trace is the save that has already
    persisted the status change, decision_date and reviewer_id (the error
    occurs after persistence, and no event is appended). -/
theorem C10_partial_event_name_map :
    (∀ s : Status,
       s ∉ [Status.FULL_REVIEW_APPROVED, Status.DECLINED,
            Status.ADDITIONAL_INFO_REQUESTED] →
       _get_event_name s = none)
    ∧ (∀ (app : Application) (rid now : Nat) (prov : Except Unit Registration),
       app.status ∉ APPLICATION_TERMINAL_STATES →
       resource_update_application_status (some app) (some "PROVISIONALLY_APPROVED") rid now
           prov =
         (BoundaryResult.internalError,
          [Action.save { app with
                         status := Status.PROVISIONALLY_APPROVED,
                         decision_date := some now,
                         reviewer_id := some rid }])) := by
  constructor
  · intro s hs
    cases s <;> first | rfl | exact absurd (by decide) hs
  · intro app rid now prov hterm
    exact boundary_pass app "PROVISIONALLY_APPROVED" Status.PROVISIONALLY_APPROVED rid now
      prov _ _ parse_PA (by decide) hterm (service_PA app rid now prov)

/-- Witness for C10 on an application under full review. -/
theorem C10_witness :
    _get_event_name Status.PAID = none ∧
    resource_update_application_status (some appF) (some "PROVISIONALLY_APPROVED") 7 200
        (Except.ok reg3) =
      (BoundaryResult.internalError,
       [Action.save { appF with
                      status := Status.PROVISIONALLY_APPROVED,
                      decision_date := some 200,
                      reviewer_id := some 7 }]) :=
  ⟨C10_partial_event_name_map.1 Status.PAID (by decide),
   C10_partial_event_name_map.2 appF 7 200 (Except.ok reg3) (by decide)⟩

/-- Counterexample to C5 as stated: PROVISIONALLY_APPROVED is terminal and
    staff-actionable, yet a transitionStatus call with that newStatus appends
    zero events (the event-name lookup raises after the save), not exactly
    one. -/
theorem C5_counterexample :
    Status.PROVISIONALLY_APPROVED ∈ APPLICATION_TERMINAL_STATES ∧
    Status.PROVISIONALLY_APPROVED ∈ APPLICATION_STATES_STAFF_ACTION ∧
    emittedEvents
        (update_application_status appF Status.PROVISIONALLY_APPROVED 7 200
          (Except.ok reg3)).2 = [] := by
  decide

/-- C5 amended: on a terminal newStatus every row the transition saves
    carries decision_date and reviewer_id, but the number of appended events
    depends on the status: DECLINED appends exactly one (MANUALLY_DENIED,
    after the save); FULL_REVIEW_APPROVED appends exactly two when
    provisioning succeeds (REGISTRATION_CREATED before the save of the row
    with decision_date and reviewer_id set, then MANUALLY_APPROVED) and, on
    provisioning failure, saves nothing and appends none;
    PROVISIONALLY_APPROVED and AUTO_APPROVED append none and the call raises
    after the save. decision_date and reviewer_id are set in no other
    circumstance: non-terminal transitions and payment reconciliation leave
    both unchanged. -/
theorem C5_terminal_transition_events_amended :
    (∀ (app : Application) (rid now : Nat) (prov : Except Unit Registration),
       update_application_status app Status.DECLINED rid now prov =
         (Except.ok { app with
                      status := Status.DECLINED,
                      decision_date := some now,
                      reviewer_id := some rid },
          [Action.save { app with
                         status := Status.DECLINED,
                         decision_date := some now,
                         reviewer_id := some rid },
           Action.emit { event_type := EventType.APPLICATION,
                         event_name := EventName.MANUALLY_DENIED,
                         application_id := app.id, registration_id := none }]))
    ∧ (∀ (app : Application) (rid now : Nat) (reg : Registration),
       update_application_status app Status.FULL_REVIEW_APPROVED rid now
           (Except.ok reg) =
         (Except.ok { app with
                      status := Status.FULL_REVIEW_APPROVED,
                      registration_id := some reg.id,
                      decision_date := some now,
                      reviewer_id := some rid },
          [Action.provision app.submitter_id app.payment_account,
           Action.emit { event_type := EventType.REGISTRATION,
                         event_name := EventName.REGISTRATION_CREATED,
                         application_id := app.id, registration_id := some reg.id },
           Action.save { app with
                         status := Status.FULL_REVIEW_APPROVED,
                         registration_id := some reg.id,
                         decision_date := some now,
                         reviewer_id := some rid },
           Action.emit { event_type := EventType.APPLICATION,
                         event_name := EventName.MANUALLY_APPROVED,
                         application_id := app.id, registration_id := none }]))
    ∧ (∀ (app : Application) (rid now : Nat) (e : Unit),
       update_application_status app Status.FULL_REVIEW_APPROVED rid now
           (Except.error e) =
         (Except.error "ProvisioningError",
          [Action.provision app.submitter_id app.payment_account]))
    ∧ (∀ (app : Application) (rid now : Nat) (prov : Except Unit Registration),
       update_application_status app Status.PROVISIONALLY_APPROVED rid now prov =
         (Except.error "UnboundLocalError",
          [Action.save { app with
                         status := Status.PROVISIONALLY_APPROVED,
                         decision_date := some now,
                         reviewer_id := some rid }]))
    ∧ (∀ (app : Application) (rid now : Nat) (prov : Except Unit Registration),
       update_application_status app Status.AUTO_APPROVED rid now prov =
         (Except.error "UnboundLocalError",
          [Action.save { app with
                         status := Status.AUTO_APPROVED,
                         decision_date := some now,
                         reviewer_id := some rid }]))
    ∧ (∀ (app : Application) (st : Status) (rid now : Nat)
         (prov : Except Unit Registration),
       st ∉ APPLICATION_TERMINAL_STATES →
       (lastSaved app (update_application_status app st rid now prov).2).decision_date =
           app.decision_date ∧
       (lastSaved app (update_application_status app st rid now prov).2).reviewer_id =
           app.reviewer_id)
    ∧ (∀ (app : Application) (inv : InvoiceDetails) (now : Nat),
       (update_application_payment_details_and_status app inv now).1.decision_date =
           app.decision_date ∧
       (update_application_payment_details_and_status app inv now).1.reviewer_id =
           app.reviewer_id) := by
  refine ⟨service_DECLINED, service_FRA_ok, service_FRA_err, service_PA, service_AUTO,
    ?_, ?_⟩
  · intro app st rid now prov hterm
    have hst : st ≠ Status.FULL_REVIEW_APPROVED := by
      rintro rfl
      exact hterm (by decide)
    cases h : _get_event_name st <;>
      simp [update_application_status, finishTransition, hst, hterm, h, lastSaved]
  · intro app inv now
    by_cases hg : app.payment_status_code = some "COMPLETED"
    · simp [update_application_payment_details_and_status, hg]
    · simp only [update_application_payment_details_and_status, if_neg hg,
        reconcileBranch, reconcileSave]
      split_ifs <;> simp

lemma hasRegCreated_append (l1 l2 : List Action) :
    hasRegCreated (l1 ++ l2) = (hasRegCreated l1 || hasRegCreated l2) := by
  induction l1 with
  | nil => simp [hasRegCreated]
  | cons a rest ih =>
    cases a with
    | save app => simpa [hasRegCreated] using ih
    | emit e =>
      by_cases h : e.event_name = EventName.REGISTRATION_CREATED <;>
        simp [hasRegCreated, h, ih]
    | provision sub acc => simpa [hasRegCreated] using ih

/-- Payment reconciliation never touches registration_id. -/
lemma reconcile_registration (app : Application) (inv : InvoiceDetails) (now : Nat) :
    (update_application_payment_details_and_status app inv now).1.registration_id =
      app.registration_id := by
  by_cases hg : app.payment_status_code = some "COMPLETED"
  · simp [update_application_payment_details_and_status, hg]
  · simp only [update_application_payment_details_and_status, if_neg hg,
      reconcileBranch, reconcileSave]
    split_ifs <;> simp

/-- Payment reconciliation never emits a REGISTRATION_CREATED event. -/
lemma reconcile_no_regcreated (app : Application) (inv : InvoiceDetails) (now : Nat) :
    hasRegCreated (update_application_payment_details_and_status app inv now).2 = false := by
  by_cases hg : app.payment_status_code = some "COMPLETED"
  · simp [update_application_payment_details_and_status, hg, hasRegCreated]
  · simp only [update_application_payment_details_and_status, if_neg hg,
      reconcileBranch, reconcileSave]
    split_ifs <;> simp [hasRegCreated]

/-- The application returned by payment reconciliation equals the last saved
    row (or the unchanged row when the guard fired). -/
lemma reconcile_lastSaved (app : Application) (inv : InvoiceDetails) (now : Nat) :
    lastSaved app (update_application_payment_details_and_status app inv now).2 =
      (update_application_payment_details_and_status app inv now).1 := by
  by_cases hg : app.payment_status_code = some "COMPLETED"
  · simp [update_application_payment_details_and_status, hg, lastSaved]
  · simp only [update_application_payment_details_and_status, if_neg hg,
      reconcileBranch, reconcileSave]
    split_ifs <;> simp [lastSaved]

/-- A reconciliation result in status DRAFT comes from a DRAFT application,
    and its payment_status_code can be COMPLETED only if it already was. -/
lemma reconcile_draft (app : Application) (inv : InvoiceDetails) (now : Nat) :
    (update_application_payment_details_and_status app inv now).1.status = Status.DRAFT →
      app.status = Status.DRAFT ∧
      ((update_application_payment_details_and_status app inv now).1.payment_status_code =
          some "COMPLETED" →
        app.payment_status_code = some "COMPLETED") := by
  by_cases hg : app.payment_status_code = some "COMPLETED"
  · simp [update_application_payment_details_and_status, hg]
  · simp only [update_application_payment_details_and_status, if_neg hg,
      reconcileBranch, reconcileSave]
    split_ifs <;> simp_all [PaymentStatus_COMPLETED]

/-- The event name chosen by _get_event_name is never REGISTRATION_CREATED. -/
lemma event_name_ne_regcreated (st : Status) (n : EventName)
    (h : _get_event_name st = some n) : n ≠ EventName.REGISTRATION_CREATED := by
  unfold _get_event_name at h
  split_ifs at h <;>
    first
      | exact Option.noConfusion h
      | (injection h with h2; subst h2; decide)

/-- The row persisted by the status-transition service: either nothing was
    saved (provisioning failure), or the saved row has the new status and an
    unchanged payment_status_code, with registration_id unchanged except on a
    successful approval where it becomes some id and a REGISTRATION_CREATED
    event is in the trace. -/
lemma service_saved_row (app : Application) (st : Status) (rid now : Nat)
    (prov : Except Unit Registration) :
    (lastSaved app (update_application_status app st rid now prov).2 = app ∧
     hasRegCreated (update_application_status app st rid now prov).2 = false) ∨
    ((lastSaved app (update_application_status app st rid now prov).2).status = st ∧
     (lastSaved app (update_application_status app st rid now prov).2).payment_status_code =
       app.payment_status_code ∧
     ((lastSaved app (update_application_status app st rid now prov).2).registration_id =
         app.registration_id ∧
       hasRegCreated (update_application_status app st rid now prov).2 = false ∨
      (∃ r, (lastSaved app (update_application_status app st rid now prov).2).registration_id =
         some r) ∧
       hasRegCreated (update_application_status app st rid now prov).2 = true)) := by
  by_cases hf : st = Status.FULL_REVIEW_APPROVED
  · subst hf
    cases prov with
    | error e =>
      left
      rw [service_FRA_err app rid now e]
      simp [lastSaved, hasRegCreated]
    | ok reg =>
      right
      rw [service_FRA_ok app rid now reg]
      simp [lastSaved, hasRegCreated]
  · right
    by_cases ht : st ∈ APPLICATION_TERMINAL_STATES
    · cases h : _get_event_name st with
      | none =>
        simp [update_application_status, finishTransition, hf, ht, h, lastSaved,
          hasRegCreated]
      | some n =>
        have hval := event_name_ne_regcreated st n h
        simp [update_application_status, finishTransition, hf, ht, h, lastSaved,
          hasRegCreated, hval]
    · cases h : _get_event_name st with
      | none =>
        simp [update_application_status, finishTransition, hf, ht, h, lastSaved,
          hasRegCreated]
      | some n =>
        have hval := event_name_ne_regcreated st n h
        simp [update_application_status, finishTransition, hf, ht, h, lastSaved,
          hasRegCreated, hval]

/-- Case split for the boundary on an existing application: either it rejects
    with badRequest and an empty trace, or all guards pass and the trace is
    exactly the service trace for some staff-actionable status. -/
lemma boundary_cases (app : Application) (s : Option String) (rid now : Nat)
    (prov : Except Unit Registration) :
    resource_update_application_status (some app) s rid now prov =
        (BoundaryResult.badRequest, []) ∨
    (∃ st, st ∈ APPLICATION_STATES_STAFF_ACTION ∧
       app.status ∉ APPLICATION_TERMINAL_STATES ∧
       (resource_update_application_status (some app) s rid now prov).2 =
         (update_application_status app st rid now prov).2) := by
  cases s with
  | none => left; rfl
  | some str =>
    simp only [resource_update_application_status]
    by_cases hs : str = ""
    · left; simp [hs]
    · rw [if_neg hs]
      cases hp : strToStatus (pyUpper str) with
      | none => left; rfl
      | some st =>
        by_cases hm : st ∈ APPLICATION_STATES_STAFF_ACTION
        · by_cases ht : app.status ∈ APPLICATION_TERMINAL_STATES
          · left; simp [hm, ht]
          · right
            refine ⟨st, hm, ht, ?_⟩
            simp only [if_pos hm, if_neg ht]
            rcases hsvc : update_application_status app st rid now prov with ⟨res, acts⟩
            cases res <;> rfl
        · left; simp [hm]

/-- registration_id tracking for one boundary-guarded operation. -/
lemma applyOp_registration (app : Application) (op : Op) :
    ((applyOp app op).1.registration_id = app.registration_id ∧
     hasRegCreated (applyOp app op).2 = false) ∨
    ((∃ r, (applyOp app op).1.registration_id = some r) ∧
     hasRegCreated (applyOp app op).2 = true) := by
  cases op with
  | reconcile inv now =>
    left
    constructor
    · show (lastSaved app (update_application_payment_details_and_status app inv now).2).registration_id = _
      rw [reconcile_lastSaved]
      exact reconcile_registration app inv now
    · exact reconcile_no_regcreated app inv now
  | transition s rid now prov =>
    rcases boundary_cases app s rid now prov with h | ⟨st, hm, ht, h2⟩
    · left
      simp [applyOp, h, lastSaved, hasRegCreated]
    · have hsr := service_saved_row app st rid now prov
      simp only [applyOp, h2]
      rcases hsr with ⟨hsame, hf⟩ | ⟨hst, hcode, hreg⟩
      · left
        rw [hsame, hf]
        exact ⟨rfl, rfl⟩
      · rcases hreg with ⟨hr, hf⟩ | ⟨⟨r, hr⟩, hf⟩
        · left; exact ⟨hr, hf⟩
        · right; exact ⟨⟨r, hr⟩, hf⟩

/-- registration_id tracking along a run of operations. -/
lemma runOps_registration (ops : List Op) : ∀ app : Application,
    ((runOps app ops).1.registration_id = app.registration_id ∧
     hasRegCreated (runOps app ops).2 = false) ∨
    ((∃ r, (runOps app ops).1.registration_id = some r) ∧
     hasRegCreated (runOps app ops).2 = true) := by
  induction ops with
  | nil => intro app; left; exact ⟨rfl, rfl⟩
  | cons op rest ih =>
    intro app
    have hrun : runOps app (op :: rest) =
        ((runOps (applyOp app op).1 rest).1,
         (applyOp app op).2 ++ (runOps (applyOp app op).1 rest).2) := rfl
    rw [hrun]
    simp only [hasRegCreated_append]
    rcases applyOp_registration app op with ⟨h1, h2⟩ | ⟨⟨r, h1⟩, h2⟩ <;>
      rcases ih (applyOp app op).1 with ⟨g1, g2⟩ | ⟨⟨q, g1⟩, g2⟩ <;>
        simp [h1, h2, g1, g2]

/-- C3: starting from a freshly created application, registration_id is
    non-null exactly when the run contains a REGISTRATION_CREATED event,
    i.e. when some boundary-guarded transition into FULL_REVIEW_APPROVED
    succeeded; and that transition calls the provisioner with the
    application submitter_id and payment_account, sets registration_id to the
    new registration id, and emits REGISTRATION_CREATED tagged with that
    id. -/
theorem C3_registration_iff_full_review_approved :
    (∀ (acct : Option String) (sid : Nat) (json : String) (aid created : Nat)
       (ops : List Op),
       ((runOps (save_application acct sid json aid created) ops).1.registration_id ≠ none ↔
        hasRegCreated (runOps (save_application acct sid json aid created) ops).2 = true))
    ∧ (∀ (app : Application) (rid now : Nat) (reg : Registration),
       app.status ∉ APPLICATION_TERMINAL_STATES →
       resource_update_application_status (some app) (some "FULL_REVIEW_APPROVED") rid now
           (Except.ok reg) =
         (BoundaryResult.ok { app with
                              status := Status.FULL_REVIEW_APPROVED,
                              registration_id := some reg.id,
                              decision_date := some now,
                              reviewer_id := some rid },
          [Action.provision app.submitter_id app.payment_account,
           Action.emit { event_type := EventType.REGISTRATION,
                         event_name := EventName.REGISTRATION_CREATED,
                         application_id := app.id, registration_id := some reg.id },
           Action.save { app with
                         status := Status.FULL_REVIEW_APPROVED,
                         registration_id := some reg.id,
                         decision_date := some now,
                         reviewer_id := some rid },
           Action.emit { event_type := EventType.APPLICATION,
                         event_name := EventName.MANUALLY_APPROVED,
                         application_id := app.id, registration_id := none }])) := by
  constructor
  · intro acct sid json aid created ops
    rcases runOps_registration ops (save_application acct sid json aid created) with
      ⟨h1, h2⟩ | ⟨⟨r, h1⟩, h2⟩
    · rw [h1, h2]
      simp [save_application]
    · rw [h1, h2]
      simp
  · intro app rid now reg hterm
    exact boundary_pass app "FULL_REVIEW_APPROVED" Status.FULL_REVIEW_APPROVED rid now
      (Except.ok reg) _ _ parse_FRA (by decide) hterm (service_FRA_ok app rid now reg)

/-- Witness for C3. -/
theorem C3_witness :
    ((runOps (save_application (some "A1") 1 "payload" 1 100) []).1.registration_id ≠ none ↔
     hasRegCreated (runOps (save_application (some "A1") 1 "payload" 1 100) []).2 = true) ∧
    resource_update_application_status (some appF) (some "FULL_REVIEW_APPROVED") 7 200
        (Except.ok reg3) =
      (BoundaryResult.ok { appF with
                           status := Status.FULL_REVIEW_APPROVED,
                           registration_id := some reg3.id,
                           decision_date := some 200,
                           reviewer_id := some 7 },
       [Action.provision appF.submitter_id appF.payment_account,
        Action.emit { event_type := EventType.REGISTRATION,
                      event_name := EventName.REGISTRATION_CREATED,
                      application_id := appF.id, registration_id := some reg3.id },
        Action.save { appF with
                      status := Status.FULL_REVIEW_APPROVED,
                      registration_id := some reg3.id,
                      decision_date := some 200,
                      reviewer_id := some 7 },
        Action.emit { event_type := EventType.APPLICATION,
                      event_name := EventName.MANUALLY_APPROVED,
                      application_id := appF.id, registration_id := none }]) :=
  ⟨C3_registration_iff_full_review_approved.1 (some "A1") 1 "payload" 1 100 [],
   C3_registration_iff_full_review_approved.2 appF 7 200 reg3 (by decide)⟩

/-- One boundary-guarded operation preserves the invariant that a DRAFT row
    never has a COMPLETED payment_status_code. -/
lemma applyOp_preserves_draft (app : Application) (op : Op)
    (hP : app.status = Status.DRAFT → app.payment_status_code ≠ some "COMPLETED") :
    (applyOp app op).1.status = Status.DRAFT →
      (applyOp app op).1.payment_status_code ≠ some "COMPLETED" := by
  cases op with
  | reconcile inv now =>
    intro hd hc
    have heq : (applyOp app (Op.reconcile inv now)).1 =
        (update_application_payment_details_and_status app inv now).1 :=
      reconcile_lastSaved app inv now
    rw [heq] at hd hc
    rcases reconcile_draft app inv now hd with ⟨had, himp⟩
    exact hP had (himp hc)
  | transition s rid now prov =>
    rcases boundary_cases app s rid now prov with h | ⟨st, hm, ht, h2⟩
    · intro hd hc
      have heq : (applyOp app (Op.transition s rid now prov)).1 = app := by
        simp [applyOp, h, lastSaved]
      rw [heq] at hd hc
      exact hP hd hc
    · have heq : (applyOp app (Op.transition s rid now prov)).1 =
          lastSaved app (update_application_status app st rid now prov).2 := by
        simp only [applyOp, h2]
      rcases service_saved_row app st rid now prov with ⟨hsame, _⟩ | ⟨hst, _, _⟩
      · rw [heq, hsame]
        exact hP
      · rw [heq]
        intro hd
        rw [hst] at hd
        subst hd
        exact absurd hm (by decide)

/-- The DRAFT-implies-not-COMPLETED invariant holds along any run. -/
lemma runOps_preserves_draft (ops : List Op) : ∀ app : Application,
    (app.status = Status.DRAFT → app.payment_status_code ≠ some "COMPLETED") →
    ((runOps app ops).1.status = Status.DRAFT →
     (runOps app ops).1.payment_status_code ≠ some "COMPLETED") := by
  induction ops with
  | nil => intro app h; exact h
  | cons op rest ih =>
    intro app h
    exact ih (applyOp app op).1 (applyOp_preserves_draft app op h)

/-- C6: on every reachable application in status DRAFT, reconciliation with
    invoice statusCode CREATED copies invoice_id, payment_account and
    payment_status_code from the invoice, moves the status to PAYMENT_DUE,
    and its whole side-effect trace is one APPLICATION_SUBMITTED event plus
    the save: exactly one event, and no PAYMENT_COMPLETE in the same call. -/
theorem C6_draft_created_submitted (acct : Option String) (sid : Nat) (json : String)
    (aid created : Nat) (ops : List Op) (app : Application) (tr : List Action)
    (inv : InvoiceDetails) (now : Nat)
    (hrun : runOps (save_application acct sid json aid created) ops = (app, tr))
    (hd : app.status = Status.DRAFT)
    (hc : inv.statusCode = some "CREATED") :
    update_application_payment_details_and_status app inv now =
      ({ app with
         invoice_id := some inv.id,
         payment_account := inv.paymentAccountId,
         payment_status_code := some "CREATED",
         status := Status.PAYMENT_DUE },
       [Action.emit { event_type := EventType.APPLICATION,
                      event_name := EventName.APPLICATION_SUBMITTED,
                      application_id := app.id, registration_id := none },
        Action.save { app with
                      invoice_id := some inv.id,
                      payment_account := inv.paymentAccountId,
                      payment_status_code := some "CREATED",
                      status := Status.PAYMENT_DUE }]) := by
  have hP : app.payment_status_code ≠ some "COMPLETED" := by
    have h0 : (save_application acct sid json aid created).status = Status.DRAFT →
        (save_application acct sid json aid created).payment_status_code ≠
          some "COMPLETED" := by
      intro _
      simp [save_application]
    have hrow := runOps_preserves_draft ops (save_application acct sid json aid created) h0
    rw [hrun] at hrow
    exact hrow hd
  simp [update_application_payment_details_and_status, reconcileBranch, reconcileSave,
    hP, hd, hc, PaymentStatus_CREATED, PaymentStatus_COMPLETED]

/-- Witness for C6 on a freshly created application. -/
theorem C6_witness :
    update_application_payment_details_and_status appD invCreated 5 =
      ({ appD with
         invoice_id := some invCreated.id,
         payment_account := invCreated.paymentAccountId,
         payment_status_code := some "CREATED",
         status := Status.PAYMENT_DUE },
       [Action.emit { event_type := EventType.APPLICATION,
                      event_name := EventName.APPLICATION_SUBMITTED,
                      application_id := appD.id, registration_id := none },
        Action.save { appD with
                      invoice_id := some invCreated.id,
                      payment_account := invCreated.paymentAccountId,
                      payment_status_code := some "CREATED",
                      status := Status.PAYMENT_DUE }]) :=
  C6_draft_created_submitted (some "A1") 1 "payload" 1 100 [] appD [] invCreated 5
    rfl rfl rfl

/-- Counterexample to C9 as stated: in the DRAFT-with-CREATED branch of
    reconcilePayment the APPLICATION_SUBMITTED event is appended before the
    application is saved, so the persisted-state mutation is not committed
    before that event. -/
theorem C9_counterexample :
    emitsAfterSave (update_application_payment_details_and_status appD invCreated 5).2 =
      false ∧
    emittedEvents (update_application_payment_details_and_status appD invCreated 5).2 =
      [{ event_type := EventType.APPLICATION,
         event_name := EventName.APPLICATION_SUBMITTED,
         application_id := 1, registration_id := none }] := by
  decide

/-- C9 amended: outside the DRAFT-with-CREATED branch every event a
    reconciliation emits (in particular PAYMENT_COMPLETE) is appended after
    the save, and for every newStatus other than FULL_REVIEW_APPROVED every
    event a transition emits (the status-named event) is appended after the
    save; but the DRAFT-with-CREATED branch appends APPLICATION_SUBMITTED
    before the save, and the successful approval branch runs exactly the
    trace provisioner call, REGISTRATION_CREATED, save, MANUALLY_APPROVED:
    REGISTRATION_CREATED precedes the save and the status-named
    MANUALLY_APPROVED follows it. -/
theorem C9_save_before_emit_amended :
    (∀ (app : Application) (inv : InvoiceDetails) (now : Nat),
       (app.status ≠ Status.DRAFT ∨ inv.statusCode ≠ some "CREATED") →
       emitsAfterSave (update_application_payment_details_and_status app inv now).2 = true)
    ∧ (∀ (app : Application) (inv : InvoiceDetails) (now : Nat),
       app.payment_status_code ≠ some "COMPLETED" →
       app.status = Status.DRAFT →
       inv.statusCode = some "CREATED" →
       (update_application_payment_details_and_status app inv now).2 =
         [Action.emit { event_type := EventType.APPLICATION,
                        event_name := EventName.APPLICATION_SUBMITTED,
                        application_id := app.id, registration_id := none },
          Action.save { app with
                        invoice_id := some inv.id,
                        payment_account := inv.paymentAccountId,
                        payment_status_code := some "CREATED",
                        status := Status.PAYMENT_DUE }])
    ∧ (∀ (app : Application) (st : Status) (rid now : Nat)
         (prov : Except Unit Registration),
       st ≠ Status.FULL_REVIEW_APPROVED →
       emitsAfterSave (update_application_status app st rid now prov).2 = true)
    ∧ (∀ (app : Application) (rid now : Nat) (reg : Registration),
       (update_application_status app Status.FULL_REVIEW_APPROVED rid now
           (Except.ok reg)).2 =
         [Action.provision app.submitter_id app.payment_account,
          Action.emit { event_type := EventType.REGISTRATION,
                        event_name := EventName.REGISTRATION_CREATED,
                        application_id := app.id, registration_id := some reg.id },
          Action.save { app with
                        status := Status.FULL_REVIEW_APPROVED,
                        registration_id := some reg.id,
                        decision_date := some now,
                        reviewer_id := some rid },
          Action.emit { event_type := EventType.APPLICATION,
                        event_name := EventName.MANUALLY_APPROVED,
                        application_id := app.id, registration_id := none }]) := by
  refine ⟨?_, ?_, ?_, ?_⟩
  · intro app inv now h
    by_cases hg : app.payment_status_code = some "COMPLETED"
    · simp [update_application_payment_details_and_status, hg, emitsAfterSave,
        emitsAfterSaveAux]
    · simp only [update_application_payment_details_and_status, if_neg hg,
        reconcileBranch, reconcileSave]
      rcases h with h | h <;>
        split_ifs <;>
          simp_all [emitsAfterSave, emitsAfterSaveAux, PaymentStatus_CREATED,
            PaymentStatus_COMPLETED, PaymentStatus_APPROVED]
  · intro app inv now hg hd hc
    simp [update_application_payment_details_and_status, reconcileBranch, reconcileSave,
      hg, hd, hc, PaymentStatus_CREATED, PaymentStatus_COMPLETED]
  · intro app st rid now prov hst
    by_cases ht : st ∈ APPLICATION_TERMINAL_STATES <;>
      cases h : _get_event_name st <;>
        simp [update_application_status, finishTransition, hst, ht, h, emitsAfterSave,
          emitsAfterSaveAux]
  · intro app rid now reg
    rw [service_FRA_ok app rid now reg]

/-- Witness for C9 amended. -/
theorem C9_witness :
    emitsAfterSave (update_application_payment_details_and_status appF invCreated 5).2 =
      true ∧
    (update_application_payment_details_and_status appD invCreated 5).2 =
      [Action.emit { event_type := EventType.APPLICATION,
                     event_name := EventName.APPLICATION_SUBMITTED,
                     application_id := appD.id, registration_id := none },
       Action.save { appD with
                     invoice_id := some invCreated.id,
                     payment_account := invCreated.paymentAccountId,
                     payment_status_code := some "CREATED",
                     status := Status.PAYMENT_DUE }] ∧
    emitsAfterSave (update_application_status appF Status.DECLINED 7 200
        (Except.ok reg3)).2 = true ∧
    (update_application_status appF Status.FULL_REVIEW_APPROVED 7 200
        (Except.ok reg3)).2 =
      [Action.provision appF.submitter_id appF.payment_account,
       Action.emit { event_type := EventType.REGISTRATION,
                     event_name := EventName.REGISTRATION_CREATED,
                     application_id := appF.id, registration_id := some reg3.id },
       Action.save { appF with
                     status := Status.FULL_REVIEW_APPROVED,
                     registration_id := some reg3.id,
                     decision_date := some 200,
                     reviewer_id := some 7 },
       Action.emit { event_type := EventType.APPLICATION,
                     event_name := EventName.MANUALLY_APPROVED,
                     application_id := appF.id, registration_id := none }] :=
  ⟨C9_save_before_emit_amended.1 appF invCreated 5 (Or.inl (by decide)),
   C9_save_before_emit_amended.2.1 appD invCreated 5 (by decide) rfl rfl,
   C9_save_before_emit_amended.2.2.1 appF Status.DECLINED 7 200 (Except.ok reg3)
     (by decide),
   C9_save_before_emit_amended.2.2.2 appF 7 200 reg3⟩

lemma length_insertDesc (a : Application) (l : List Application) :
    (insertDesc a l).length = l.length + 1 := by
  induction l with
  | nil => rfl
  | cons b bs ih =>
    simp only [insertDesc]
    split_ifs <;> simp [ih]

lemma length_sortByIdDesc (l : List Application) :
    (sortByIdDesc l).length = l.length := by
  induction l with
  | nil => rfl
  | cons a as ih => simp [sortByIdDesc, length_insertDesc, ih]

lemma slice_ne_nil (l : List Application) (s n : Nat) (hs : s < l.length)
    (hn : 1 ≤ n) : (l.drop s).take n ≠ [] := by
  intro h
  have hlen := congrArg List.length h
  simp [List.length_take, List.length_drop] at hlen
  omega

/-- Counterexample to C8 as stated: with one matching row, requesting page 2
    with limit 10 is a page beyond the available data, and
    find_by_user_and_account raises (flask-sqlalchemy paginate aborts with a
    404 when the page has no items, modelled as none) instead of returning an
    empty list. -/
theorem C8_counterexample :
    find_by_user_and_account [appD] 1 "A1" none 2 10 true = none := by
  decide

/-- C8 amended: with page and limit at least 1, a page that contains at
    least one item of the ordered matching rows returns exactly the items at
    positions [(page-1)*limit, page*limit) together with the total matching
    count; but a page beyond the available data (other than page 1) aborts
    with an error (none) rather than returning an empty list. -/
theorem C8_pagination_amended (rows : List Application) (uid : Nat) (acct : String)
    (sf : Option String) (exam : Bool) (page limit : Nat)
    (hp : 1 ≤ page) (hl : 1 ≤ limit) :
    ((page - 1) * limit < (sortByIdDesc (matchedRows rows uid acct sf exam)).length →
      find_by_user_and_account rows uid acct sf page limit exam =
        some { items := ((sortByIdDesc (matchedRows rows uid acct sf exam)).drop
                  ((page - 1) * limit)).take limit,
               total := (matchedRows rows uid acct sf exam).length,
               page := page, per_page := limit })
    ∧ ((sortByIdDesc (matchedRows rows uid acct sf exam)).length ≤ (page - 1) * limit →
       2 ≤ page →
       find_by_user_and_account rows uid acct sf page limit exam = none) := by
  constructor
  · intro hlt
    simp only [find_by_user_and_account, paginate]
    rw [if_neg (show ¬page < 1 by omega), if_neg (show ¬limit < 1 by omega)]
    have hcond : ¬(((sortByIdDesc (matchedRows rows uid acct sf exam)).drop
        ((page - 1) * limit)).take limit = [] ∧ page ≠ 1) :=
      fun hco => slice_ne_nil _ _ _ hlt hl hco.1
    rw [if_neg hcond]
    simp [length_sortByIdDesc]
  · intro hge h2
    simp only [find_by_user_and_account, paginate]
    rw [if_neg (show ¬page < 1 by omega), if_neg (show ¬limit < 1 by omega)]
    rw [List.drop_eq_nil_of_le hge]
    rw [if_pos ⟨List.take_nil, by omega⟩]

/-- Witness for C8 amended. -/
theorem C8_witness :
    find_by_user_and_account [appD] 1 "A1" none 1 10 true =
      some { items := ((sortByIdDesc (matchedRows [appD] 1 "A1" none true)).drop 0).take 10,
             total := (matchedRows [appD] 1 "A1" none true).length,
             page := 1, per_page := 10 } ∧
    find_by_user_and_account [appD] 1 "A1" none 3 10 true = none :=
  ⟨(C8_pagination_amended [appD] 1 "A1" none true 1 10 (by decide) (by decide)).1
     (by decide),
   (C8_pagination_amended [appD] 1 "A1" none true 3 10 (by decide) (by decide)).2
     (by decide) (by decide)⟩

/-- Witness for C5 amended at concrete inputs. -/
theorem C5_witness :
    ((lastSaved appF (update_application_status appF Status.PAID 7 200
        (Except.ok reg3)).2).decision_date = appF.decision_date ∧
     (lastSaved appF (update_application_status appF Status.PAID 7 200
        (Except.ok reg3)).2).reviewer_id = appF.reviewer_id) ∧
    update_application_status appF Status.FULL_REVIEW_APPROVED 7 200 (Except.ok reg3) =
      (Except.ok { appF with
                   status := Status.FULL_REVIEW_APPROVED,
                   registration_id := some reg3.id,
                   decision_date := some 200,
                   reviewer_id := some 7 },
       [Action.provision appF.submitter_id appF.payment_account,
        Action.emit { event_type := EventType.REGISTRATION,
                      event_name := EventName.REGISTRATION_CREATED,
                      application_id := appF.id, registration_id := some reg3.id },
        Action.save { appF with
                      status := Status.FULL_REVIEW_APPROVED,
                      registration_id := some reg3.id,
                      decision_date := some 200,
                      reviewer_id := some 7 },
        Action.emit { event_type := EventType.APPLICATION,
                      event_name := EventName.MANUALLY_APPROVED,
                      application_id := appF.id, registration_id := none }]) :=
  ⟨C5_terminal_transition_events_amended.2.2.2.2.2.1 appF Status.PAID 7 200
     (Except.ok reg3) (by decide),
   C5_terminal_transition_events_amended.2.1 appF 7 200 reg3⟩

end STRR
